import Mathlib

/-!
Shallow embedding of `src/etl_stock_data.py`, the ETL pipeline that fetches
historical stock bars from the Twelve Data API and loads them into a
PostgreSQL table.  The embedding models:

* `fetch_stock_data` (lines 47-89): HTTP GET, `raise_for_status`, the
  `values`-field check, DataFrame construction, symbol column, datetime parse;
* `insert_into_db` (lines 93-157): connect, `CREATE TABLE` for `stock_data`,
  the per-row `INSERT INTO stock_prices ... ON CONFLICT DO NOTHING` loop with
  `float()` / `int()` coercions, commit, close, and the `except` clause that
  logs every error and returns normally;
* `main`'s per-symbol loop (lines 187-194) with its per-symbol `except`.

External effects (the HTTP response, driver-level failures of the psycopg2
connection and cursor) are passed in explicitly as environment values, so
every definition is executable.
-/

/-- The error taxonomy of the spec, mapped onto the distinct raise sites of
the source: `transport` for `requests` exceptions (connection failures and
`raise_for_status` on a non-2xx status), `upstream` for the
`raise Exception("API Error: ...")` at line 82, `parse` for
`pd.to_datetime` / `float()` / `int()` failures, `store` for psycopg2
driver errors. -/
inductive EtlError : Type
  | transport (detail : String)
  | upstream (message : String)
  | parse (detail : String)
  | store (detail : String)
  deriving DecidableEq, Repr

/-- A parsed bar timestamp (the result of `pd.to_datetime` on one value). -/
structure Timestamp : Type where
  year : Nat
  month : Nat
  day : Nat
  hour : Nat
  minute : Nat
  second : Nat
  deriving DecidableEq, Repr

/-- Numeric value of a two-digit pair. -/
def toNat2 (a b : Char) : Nat :=
  (a.toNat - 48) * 10 + (b.toNat - 48)

/-- Numeric value of a four-digit group. -/
def toNat4 (a b c d : Char) : Nat :=
  toNat2 a b * 100 + toNat2 c d

/-- Model of `pd.to_datetime` on a single string, restricted to the
provider's bar format `YYYY-MM-DD HH:MM:SS`: anything else is a parse
failure, as `pd.to_datetime` raises on strings it cannot interpret. -/
def parseDatetime (s : String) : Option Timestamp :=
  match s.toList with
  | [y1, y2, y3, y4, '-', m1, m2, '-', d1, d2, ' ', h1, h2, ':', n1, n2, ':', s1, s2] =>
    if ([y1, y2, y3, y4, m1, m2, d1, d2, h1, h2, n1, n2, s1, s2].all Char.isDigit) then
      let mo := toNat2 m1 m2
      let da := toNat2 d1 d2
      let ho := toNat2 h1 h2
      let mi := toNat2 n1 n2
      let se := toNat2 s1 s2
      if 1 ≤ mo ∧ mo ≤ 12 ∧ 1 ≤ da ∧ da ≤ 31 ∧ ho < 24 ∧ mi < 60 ∧ se < 60 then
        some ⟨toNat4 y1 y2 y3 y4, mo, da, ho, mi, se⟩
      else none
    else none
  | _ => none

/-- Numeric value of a digit list (most significant first). -/
def natOfDigits (ds : List Char) : Nat :=
  ds.foldl (fun acc c => acc * 10 + (c.toNat - 48)) 0

/-- Exact value of a parsed decimal literal, kept as a scaled integer:
the value denoted is `num / 10 ^ scale`.  The pipeline never computes
with prices (it only parses and stores them), so this exact
representation stands in for the Python `float`. -/
structure DecValue : Type where
  num : Int
  scale : Nat
  deriving DecidableEq, Repr

/-- Unsigned part of Python `float(str)` on a plain decimal literal:
digits with an optional fractional part.  Exponent and the special
`inf`/`nan` spellings are outside the provider's value format and are
not modelled. -/
def parsePosFloat (cs : List Char) : Option DecValue :=
  match cs.span Char.isDigit with
  | (ds, []) => if ds.isEmpty then none else some ⟨natOfDigits ds, 0⟩
  | (ds, '.' :: fs) =>
    if fs.all Char.isDigit && !(ds.isEmpty && fs.isEmpty) then
      some ⟨natOfDigits (ds ++ fs), fs.length⟩
    else none
  | _ => none

/-- Leading and trailing whitespace stripped from a character list
(`str.strip()` as performed by Python numeric constructors). -/
def trimChars (cs : List Char) : List Char :=
  ((cs.dropWhile Char.isWhitespace).reverse.dropWhile Char.isWhitespace).reverse

/-- Model of Python `float(str)` as used at lines 142-145: leading and
trailing whitespace stripped, optional sign, decimal literal; any other
string raises `ValueError` (modelled as `none`). -/
def parseFloat (s : String) : Option DecValue :=
  match trimChars s.toList with
  | '-' :: rest => (parsePosFloat rest).map (fun q => ⟨-q.num, q.scale⟩)
  | '+' :: rest => parsePosFloat rest
  | cs => parsePosFloat cs

/-- Model of Python `int(str)` as used at line 146: whitespace stripped,
optional sign, digits; anything else raises `ValueError` (`none`). -/
def parseInt (s : String) : Option Int :=
  match trimChars s.toList with
  | '-' :: ds =>
    if !ds.isEmpty && ds.all Char.isDigit then some (-(natOfDigits ds : Int)) else none
  | '+' :: ds =>
    if !ds.isEmpty && ds.all Char.isDigit then some ((natOfDigits ds : Int)) else none
  | ds =>
    if !ds.isEmpty && ds.all Char.isDigit then some ((natOfDigits ds : Int)) else none

/-- One provider-native bar, an element of the JSON `values` array:
`{datetime, open, high, low, close, volume}`, every field a string. -/
structure RawQuote : Type where
  datetime : String
  open_ : String
  high : String
  low : String
  close : String
  volume : String
  deriving DecidableEq, Repr

/-- The parsed JSON body of a provider response: an optional `values`
array and an optional `message` field (read by `data.get("message", ...)`). -/
structure ApiBody : Type where
  values : Option (List RawQuote)
  message : Option String
  deriving DecidableEq, Repr

/-- Outcome of the `requests.get` call at line 75: either the connection
itself fails, or a response with an HTTP status and a JSON body arrives. -/
inductive HttpResult : Type
  | connectionFailure (detail : String)
  | response (status : Nat) (body : ApiBody)
  deriving DecidableEq, Repr

/-- One row of the DataFrame returned by `fetch_stock_data`: the
`datetime` column converted by `pd.to_datetime` (line 87), the price and
volume columns still the provider's strings, and the added `symbol`
column (line 86). -/
structure StockRow : Type where
  datetime : Timestamp
  open_ : String
  high : String
  low : String
  close : String
  volume : String
  symbol : String
  deriving DecidableEq, Repr

/-- Element-wise fallible map, the semantics of `pd.to_datetime` over a
column: the first malformed element fails the whole conversion. -/
def mapExcept (f : α → Except EtlError β) : List α → Except EtlError (List β)
  | [] => .ok []
  | a :: as =>
    match f a with
    | .error e => .error e
    | .ok b =>
      match mapExcept f as with
      | .error e => .error e
      | .ok bs => .ok (b :: bs)

/-- Conversion of one `values` element into a DataFrame row: parse the
datetime, keep the other columns as strings, attach the queried symbol. -/
def toStockRow (symbol : String) (q : RawQuote) : Except EtlError StockRow :=
  match parseDatetime q.datetime with
  | none => .error (.parse ("to_datetime failed on " ++ q.datetime))
  | some t => .ok ⟨t, q.open_, q.high, q.low, q.close, q.volume, symbol⟩

/-- `fetch_stock_data` (lines 47-89).  The HTTP interaction is the
explicit `http` argument.  `response.raise_for_status()` raises on a
non-2xx status (transport failure); a body without `values` raises
`Exception("API Error: " + message-or-default)` (line 81-82); otherwise
the DataFrame is built.  `pd.DataFrame([])` has no columns at all, so for
an empty `values` array the column access `df["datetime"]` at line 87
raises `KeyError`, modelled as a parse failure. -/
def fetch_stock_data (symbol interval start_date end_date : String)
    (http : HttpResult) : Except EtlError (List StockRow) :=
  match http with
  | .connectionFailure d => .error (.transport d)
  | .response status body =>
    if 200 ≤ status ∧ status < 300 then
      match body.values with
      | none => .error (.upstream ("API Error: " ++ body.message.getD "Unknown error"))
      | some values =>
        if values.isEmpty then .error (.parse "KeyError: datetime")
        else mapExcept (toStockRow symbol) values
    else .error (.transport ("HTTP status " ++ toString status))

/-- The `CREATE TABLE` statement executed at line 127 (text from lines
116-126 of the source). -/
def create_table_query : String :=
  "CREATE TABLE IF NOT EXISTS stock_data (symbol TEXT, datetime TIMESTAMP, open FLOAT, high FLOAT, low FLOAT, close FLOAT, volume BIGINT);"

/-- The `INSERT` statement executed once per row at lines 133-138 of the
source. -/
def insert_query : String :=
  "INSERT INTO stock_prices (symbol, datetime, open, high, low, close, volume) VALUES (%s, %s, %s, %s, %s, %s, %s) ON CONFLICT DO NOTHING;"

/-- Whether a character separates words in SQL text. -/
def sqlSep (c : Char) : Bool :=
  c == ' ' || c == '(' || c == ')' || c == ',' || c == ';'

/-- One step of the word accumulator: finished words so far and the
current word's characters in reverse. -/
def sqlStep (acc : List String × List Char) (c : Char) : List String × List Char :=
  if sqlSep c then
    match acc.2 with
    | [] => (acc.1, [])
    | cur => (acc.1 ++ [String.mk cur.reverse], [])
  else (acc.1, c :: acc.2)

/-- SQL text split into words, punctuation discarded. -/
def sqlTokens (q : String) : List String :=
  match q.toList.foldl sqlStep ([], []) with
  | (ws, []) => ws
  | (ws, cur) => ws ++ [String.mk cur.reverse]

/-- The word following the first occurrence of a keyword. -/
def tokenAfter (kw : String) : List String → Option String
  | [] => none
  | [_] => none
  | a :: b :: rest => if a = kw then some b else tokenAfter kw (b :: rest)

/-- The table named by the `CREATE TABLE IF NOT EXISTS` statement. -/
def createdTable : Option String :=
  tokenAfter "EXISTS" (sqlTokens create_table_query)

/-- The table named by the `INSERT INTO` statement. -/
def insertTable : Option String :=
  tokenAfter "INTO" (sqlTokens insert_query)

/-- One canonical persisted row of the price table: the tuple bound at
lines 139-147, with `float()` applied to the four price columns and
`int()` to the volume. -/
structure DbRow : Type where
  symbol : String
  datetime : Timestamp
  open_ : DecValue
  high : DecValue
  low : DecValue
  close : DecValue
  volume : Int
  deriving DecidableEq, Repr

/-- Whether two rows collide on the natural key `(symbol, datetime)`. -/
def sameKey (a b : DbRow) : Bool :=
  decide (a.symbol = b.symbol) && decide (a.datetime = b.datetime)

/-- Whether the table already holds a row with the key of `r`. -/
def hasKey (t : List DbRow) (r : DbRow) : Bool :=
  t.any (fun x => sameKey x r)

/-- Modelled from the spec: one `INSERT ... ON CONFLICT DO NOTHING`
against the price table.  The table's own DDL (and hence its unique
constraint) is not part of this repository — the script creates a
different table — so the natural key `(symbol, datetime)` stated in §6 of
the spec is assumed: on a key collision the existing row is kept and
nothing is written (the Boolean reports whether a row was written). -/
def insertIfAbsent (t : List DbRow) (r : DbRow) : List DbRow × Bool :=
  if hasKey t r then (t, false) else (t ++ [r], true)

/-- The effect of committing the insert loop: each pending row applied in
order with insert-if-absent semantics; the second component counts rows
actually written (conflicts skipped are not counted). -/
def upsert (t : List DbRow) : List DbRow → List DbRow × Nat
  | [] => (t, 0)
  | r :: rest =>
    let p := insertIfAbsent t r
    let q := upsert p.1 rest
    (q.1, if p.2 then q.2 + 1 else q.2)

/-- Driver-level behaviour of one `insert_into_db` call: whether
`psycopg2.connect` raises (with the driver message), and whether the
`k`-th driver operation after a successful connect raises.  Operation 0
is `cur.execute(create_table_query)`, operation 1 the first
`conn.commit()`, operation `2 + i` the `INSERT` execute for row `i`, and
operation `2 + n` the final `conn.commit()`. -/
structure DbEnv : Type where
  connectFail : Option String
  opFail : Nat → Option String

/-- A driver that never fails, for concrete runs. -/
def happyDb : DbEnv := ⟨none, fun _ => none⟩

/-- The tuple construction at lines 139-147: `float()` on the four price
columns and `int()` on the volume; any malformed field raises
`ValueError` (`none`). -/
def parseRow (row : StockRow) : Option DbRow :=
  match parseFloat row.open_, parseFloat row.high, parseFloat row.low,
      parseFloat row.close, parseInt row.volume with
  | some o, some h, some l, some c, some v =>
    some ⟨row.symbol, row.datetime, o, h, l, c, v⟩
  | _, _, _, _, _ => none

/-- The `for _, row in df.iterrows()` loop (lines 131-148), starting at
driver operation `k`: each iteration first coerces the row's fields
(possibly raising `ValueError`), then executes the `INSERT` (possibly
raising a driver error).  On success it yields the pending rows of the
open transaction, in order. -/
def insertLoop (denv : DbEnv) : Nat → List StockRow → Except EtlError (List DbRow)
  | _, [] => .ok []
  | k, row :: rest =>
    match parseRow row with
    | none => .error (.parse ("could not convert row field for " ++ row.symbol))
    | some r =>
      match denv.opFail k with
      | some m => .error (.store m)
      | none =>
        match insertLoop denv (k + 1) rest with
        | .error e => .error e
        | .ok rs => .ok (r :: rs)

/-- The body of the `try` block of `insert_into_db` (lines 104-150) up to
and including the final `conn.commit()`: connect, create-table execute,
first commit, insert loop, final commit.  The first raised error aborts
the body; on success the pending rows are returned, to be applied to the
committed table. -/
def loadResult (denv : DbEnv) (df : List StockRow) : Except EtlError (List DbRow) :=
  match denv.connectFail with
  | some m => .error (.store m)
  | none =>
    match denv.opFail 0 with
    | some m => .error (.store m)
    | none =>
      match denv.opFail 1 with
      | some m => .error (.store m)
      | none =>
        match insertLoop denv 2 df with
        | .error e => .error e
        | .ok pending =>
          match denv.opFail (2 + df.length) with
          | some m => .error (.store m)
          | none => .ok pending

/-- Observable outcome of one `insert_into_db` call: the committed
contents of the price table afterwards, how many rows were newly
written, whether a connection was acquired, whether it was released
(`conn.close()`, line 152) before returning, and the error logged by the
`except` clause at lines 155-157 (`none` on the success path). -/
structure LoadOutcome : Type where
  table : List DbRow
  written : Nat
  acquired : Bool
  released : Bool
  loggedError : Option EtlError
  deriving Repr

/-- `insert_into_db` (lines 93-157).  The whole body sits in one
`try/except Exception` whose handler only logs the error and returns, so
the function never raises to its caller.  There is no `finally` and no
context manager: `cur.close()` / `conn.close()` (lines 151-152) run only
when every prior statement succeeded, so on any failure after a
successful connect the connection is left unreleased.  An uncommitted
transaction is discarded, so a failing call leaves the table unchanged. -/
def insert_into_db (denv : DbEnv) (store : List DbRow) (df : List StockRow) : LoadOutcome :=
  match loadResult denv df with
  | .error e => ⟨store, 0, denv.connectFail.isNone, false, some e⟩
  | .ok pending =>
    let q := upsert store pending
    ⟨q.1, q.2, true, true, none⟩

/-- The external world one run sees: the provider's response per symbol
and the database driver's behaviour per symbol. -/
structure Env : Type where
  http : String → HttpResult
  db : String → DbEnv

/-- Per-symbol entry of the run report, assembled from the log events of
lines 189-194 and 155-157: the fetched row count logged at line 191, the
error caught by `main`'s per-symbol `except` (line 193), and the error
`insert_into_db` caught and logged internally (line 157). -/
structure SymbolOutcome : Type where
  symbol : String
  rowsFetched : Option Nat
  mainCaught : Option EtlError
  loadLogged : Option EtlError
  deriving DecidableEq, Repr

/-- One iteration of `main`'s loop (lines 187-194) for one symbol:
fetch, then load; an exception from the fetch is caught by the `except`
at line 193, while the load never raises. -/
def runSymbol (env : Env) (interval start_date end_date : String)
    (table : List DbRow) (s : String) : List DbRow × SymbolOutcome :=
  match fetch_stock_data s interval start_date end_date (env.http s) with
  | .error e => (table, ⟨s, none, some e, none⟩)
  | .ok df =>
    let o := insert_into_db (env.db s) table df
    (o.table, ⟨s, some df.length, none, o.loggedError⟩)

/-- `main`'s loop over the symbol list, threading the price table. -/
def run (env : Env) (interval start_date end_date : String)
    (table : List DbRow) : List String → List DbRow × List SymbolOutcome
  | [] => (table, [])
  | s :: rest =>
    let p := runSymbol env interval start_date end_date table s
    let q := run env interval start_date end_date p.1 rest
    (q.1, p.2 :: q.2)

/-- The outcome a symbol receives from its own environment alone,
independent of any table state. -/
def outcomeOf (env : Env) (interval start_date end_date : String) (s : String) :
    SymbolOutcome :=
  (runSymbol env interval start_date end_date [] s).2

/-- A well-formed provider bar, used for concrete runs. -/
def goodQuote : RawQuote := ⟨"2024-01-02 09:30:00", "100.0", "101.5", "99.0", "100.5", "1000"⟩

/-- A fully healthy environment: one bar per symbol, failure-free driver. -/
def goodEnv : Env := ⟨fun _ => .response 200 ⟨some [goodQuote], none⟩, fun _ => happyDb⟩

/-- The persisted form of `goodQuote` for the symbol AAPL. -/
def wrow1 : DbRow := ⟨"AAPL", ⟨2024, 1, 2, 9, 30, 0⟩, ⟨1000, 1⟩, ⟨1015, 1⟩, ⟨990, 1⟩, ⟨1005, 1⟩, 1000⟩

/-- A second persisted row with a different `(symbol, datetime)` key. -/
def wrow2 : DbRow := ⟨"INFY.NSE", ⟨2024, 1, 2, 10, 30, 0⟩, ⟨200, 0⟩, ⟨205, 0⟩, ⟨195, 0⟩, ⟨201, 0⟩, 500⟩

/-- A driver whose connect succeeds but whose every statement fails. -/
def opFailDb : DbEnv := ⟨none, fun _ => some "server closed the connection unexpectedly"⟩

/-- A driver whose connection attempt itself fails. -/
def connFailDb : DbEnv := ⟨some "connection refused", fun _ => none⟩

/-- A healthy provider paired with an unreachable store. -/
def connFailEnv : Env := ⟨fun _ => .response 200 ⟨some [goodQuote], none⟩, fun _ => connFailDb⟩

/-- A provider bar whose date-time string `pd.to_datetime` cannot parse. -/
def badQuote : RawQuote := ⟨"not-a-date", "100.0", "101.5", "99.0", "100.5", "1000"⟩

/-- A DataFrame row whose volume field `int()` rejects. -/
def badRow : StockRow := ⟨⟨2024, 1, 2, 9, 30, 0⟩, "100.0", "101.5", "99.0", "100.5", "12.5", "AAPL"⟩

example : parseDatetime "2024-01-02 09:30:00" = some ⟨2024, 1, 2, 9, 30, 0⟩ := by decide

example : parseDatetime "not-a-date" = none := by decide

example : parseFloat "101.5" = some ⟨1015, 1⟩ := by decide

example : parseFloat "abc" = none := by decide

example : parseInt "1000" = some 1000 := by decide

example : parseInt "12.5" = none := by decide

example : (run goodEnv "1h" "2024-01-01" "2024-01-03" [] ["AAPL"]).2 =
    [⟨"AAPL", some 1, none, none⟩] := by decide

example : (run goodEnv "1h" "2024-01-01" "2024-01-03" [] ["AAPL"]).1 = [wrow1] := by decide

theorem mapExcept_ok_length {f : α → Except EtlError β} {l : List α} {ys : List β}
    (h : mapExcept f l = .ok ys) : ys.length = l.length := by
  induction l generalizing ys with
  | nil => simp [mapExcept] at h; simp [← h]
  | cons a as ih =>
    simp only [mapExcept] at h
    cases hf : f a with
    | error e => simp [hf] at h
    | ok b =>
      simp only [hf] at h
      cases hm : mapExcept f as with
      | error e => simp [hm] at h
      | ok bs =>
        simp only [hm] at h
        cases h
        simp [ih hm]

theorem mapExcept_ok_mem {f : α → Except EtlError β} {l : List α} {ys : List β}
    (h : mapExcept f l = .ok ys) : ∀ y ∈ ys, ∃ x ∈ l, f x = .ok y := by
  induction l generalizing ys with
  | nil => simp [mapExcept] at h; subst h; simp
  | cons a as ih =>
    simp only [mapExcept] at h
    cases hf : f a with
    | error e => simp [hf] at h
    | ok b =>
      simp only [hf] at h
      cases hm : mapExcept f as with
      | error e => simp [hm] at h
      | ok bs =>
        simp only [hm] at h
        cases h
        intro y hy
        rcases List.mem_cons.mp hy with rfl | hy
        · exact ⟨a, List.mem_cons_self a as, hf⟩
        · rcases ih hm y hy with ⟨x, hx, hfx⟩
          exact ⟨x, List.mem_cons_of_mem a hx, hfx⟩

theorem mapExcept_error_of_mem {f : α → Except EtlError β} {l : List α} {a : α} {e : EtlError}
    (ha : a ∈ l) (hf : f a = .error e) : ∃ d, mapExcept f l = .error d := by
  induction l with
  | nil => cases ha
  | cons b bs ih =>
    simp only [mapExcept]
    cases hb : f b with
    | error d => exact ⟨d, rfl⟩
    | ok v =>
      rcases List.mem_cons.mp ha with rfl | ha
      · rw [hb] at hf; cases hf
      · rcases ih ha with ⟨d, hd⟩
        rw [hd]
        exact ⟨d, rfl⟩

theorem mapExcept_toStockRow_error {s : String} {l : List RawQuote} {e : EtlError}
    (h : mapExcept (toStockRow s) l = .error e) : ∃ d, e = .parse d := by
  induction l generalizing e with
  | nil => simp [mapExcept] at h
  | cons a as ih =>
    simp only [mapExcept] at h
    cases hf : toStockRow s a with
    | error d =>
      rw [hf] at h
      cases h
      unfold toStockRow at hf
      cases hp : parseDatetime a.datetime with
      | none => rw [hp] at hf; cases hf; exact ⟨_, rfl⟩
      | some t => rw [hp] at hf; cases hf
    | ok b =>
      rw [hf] at h
      cases hm : mapExcept (toStockRow s) as with
      | error d => rw [hm] at h; cases h; exact ih hm
      | ok bs => rw [hm] at h; cases h

theorem sameKey_refl (r : DbRow) : sameKey r r = true := by
  simp [sameKey]

theorem hasKey_append_left {t : List DbRow} {r : DbRow} (h : hasKey t r = true)
    (l : List DbRow) : hasKey (t ++ l) r = true := by
  simp only [hasKey, List.any_append, Bool.or_eq_true]
  exact Or.inl h

theorem insertIfAbsent_fst_append (t : List DbRow) (r : DbRow) :
    ∃ e, (insertIfAbsent t r).1 = t ++ e := by
  unfold insertIfAbsent
  by_cases h : hasKey t r
  · exact ⟨[], by simp [h]⟩
  · exact ⟨[r], by simp [h]⟩

theorem upsert_fst_append (t : List DbRow) (rows : List DbRow) :
    ∃ e, (upsert t rows).1 = t ++ e := by
  induction rows generalizing t with
  | nil => exact ⟨[], by simp [upsert]⟩
  | cons r rest ih =>
    rcases insertIfAbsent_fst_append t r with ⟨e1, h1⟩
    rcases ih (insertIfAbsent t r).1 with ⟨e2, h2⟩
    refine ⟨e1 ++ e2, ?_⟩
    show (upsert (insertIfAbsent t r).1 rest).1 = t ++ (e1 ++ e2)
    rw [h2, h1, List.append_assoc]

theorem hasKey_insertIfAbsent_self (t : List DbRow) (r : DbRow) :
    hasKey (insertIfAbsent t r).1 r = true := by
  unfold insertIfAbsent
  by_cases h : hasKey t r
  · simp [h]
  · simp only [h, Bool.false_eq_true, if_false]
    simp [hasKey, sameKey_refl]

theorem hasKey_upsert_of_hasKey {t : List DbRow} {r : DbRow} (rows : List DbRow)
    (h : hasKey t r = true) : hasKey (upsert t rows).1 r = true := by
  rcases upsert_fst_append t rows with ⟨e, he⟩
  rw [he]
  exact hasKey_append_left h e

theorem hasKey_upsert_of_mem {t : List DbRow} {r : DbRow} {rows : List DbRow}
    (h : r ∈ rows) : hasKey (upsert t rows).1 r = true := by
  induction rows generalizing t with
  | nil => cases h
  | cons a rest ih =>
    rcases List.mem_cons.mp h with rfl | h
    · show hasKey (upsert (insertIfAbsent t r).1 rest).1 r = true
      exact hasKey_upsert_of_hasKey rest (hasKey_insertIfAbsent_self t r)
    · exact ih h

theorem upsert_all_conflicts {t : List DbRow} {rows : List DbRow}
    (h : ∀ r ∈ rows, hasKey t r = true) : upsert t rows = (t, 0) := by
  induction rows with
  | nil => rfl
  | cons r rest ih =>
    have hr : hasKey t r = true := h r (List.mem_cons_self r rest)
    have hrest : ∀ x ∈ rest, hasKey t x = true :=
      fun x hx => h x (List.mem_cons_of_mem r hx)
    simp [upsert, insertIfAbsent, hr, ih hrest]

theorem insertLoop_parse_error_of_mem {denv : DbEnv} {df : List StockRow} {row : StockRow}
    (hops : ∀ k, denv.opFail k = none) (hmem : row ∈ df) (hbad : parseRow row = none) :
    ∀ k0, ∃ d, insertLoop denv k0 df = .error (.parse d) := by
  induction df with
  | nil => cases hmem
  | cons a rest ih =>
    intro k0
    rcases List.mem_cons.mp hmem with rfl | hmem
    · exact ⟨"could not convert row field for " ++ row.symbol, by simp [insertLoop, hbad]⟩
    · simp only [insertLoop]
      cases hp : parseRow a with
      | none => exact ⟨_, rfl⟩
      | some r =>
        rcases ih hmem (k0 + 1) with ⟨d, hd⟩
        rw [hops k0, hd]
        exact ⟨d, rfl⟩

theorem insert_into_db_loggedError_indep (denv : DbEnv) (t t' : List DbRow)
    (df : List StockRow) :
    (insert_into_db denv t df).loggedError = (insert_into_db denv t' df).loggedError := by
  unfold insert_into_db
  cases h : loadResult denv df <;> simp

theorem runSymbol_snd_eq_outcomeOf (env : Env) (interval start_date end_date : String)
    (t : List DbRow) (s : String) :
    (runSymbol env interval start_date end_date t s).2 =
      outcomeOf env interval start_date end_date s := by
  unfold outcomeOf runSymbol
  cases h : fetch_stock_data s interval start_date end_date (env.http s) with
  | error e => rfl
  | ok df => simp [insert_into_db_loggedError_indep (env.db s) t [] df]

/-- C1: for every environment, initial table state and symbol list, the run
report has exactly one entry per symbol, in order, and each symbol's entry is
a function of that symbol's own environment alone — so a failure of symbol
`k` (at fetch, normalize or load) is recorded in `k`'s own entry and leaves
the entries of symbols `k+1..n` exactly what they would have been anyway;
no symbol's failure aborts the run. -/
theorem run_isolates_symbol_failures (env : Env) (interval start_date end_date : String)
    (table : List DbRow) (symbols : List String) :
    (run env interval start_date end_date table symbols).2 =
        symbols.map (outcomeOf env interval start_date end_date) ∧
      (run env interval start_date end_date table symbols).2.length = symbols.length := by
  have hmap : ∀ t : List DbRow, (run env interval start_date end_date t symbols).2 =
      symbols.map (outcomeOf env interval start_date end_date) := by
    induction symbols with
    | nil => intro t; rfl
    | cons s rest ih =>
      intro t
      show (runSymbol env interval start_date end_date t s).2 ::
          (run env interval start_date end_date
            (runSymbol env interval start_date end_date t s).1 rest).2 =
          outcomeOf env interval start_date end_date s ::
            rest.map (outcomeOf env interval start_date end_date)
      rw [runSymbol_snd_eq_outcomeOf, ih]
  exact ⟨hmap table, by rw [hmap table, List.length_map]⟩

theorem loadResult_happy (df : List StockRow) :
    loadResult happyDb df = insertLoop happyDb 2 df := by
  unfold loadResult happyDb
  cases h : insertLoop ⟨none, fun _ => none⟩ 2 df <;> simp [h]

/-- C2: `upsert` (the committed effect of the insert loop) is idempotent:
a second pass over the same row sequence writes zero rows and leaves the
table exactly as after the first pass; the table only ever grows by
appending (existing rows are never overwritten), and a row whose
`(symbol, datetime)` key is already present is skipped outright.  The
same holds for a repeated `insert_into_db` call under a failure-free
driver. -/
theorem upsert_idempotent_insert_if_absent (t rows : List DbRow) (df : List StockRow) :
    upsert (upsert t rows).1 rows = ((upsert t rows).1, 0) ∧
      (∃ extra, (upsert t rows).1 = t ++ extra) ∧
      (∀ r, hasKey t r = true → insertIfAbsent t r = (t, false)) ∧
      (insert_into_db happyDb (insert_into_db happyDb t df).table df).table =
        (insert_into_db happyDb t df).table ∧
      (insert_into_db happyDb (insert_into_db happyDb t df).table df).written = 0 := by
  have idem : ∀ t0 rows0 : List DbRow,
      upsert (upsert t0 rows0).1 rows0 = ((upsert t0 rows0).1, 0) :=
    fun t0 rows0 => upsert_all_conflicts (fun r hr => hasKey_upsert_of_mem hr)
  have hdb : (insert_into_db happyDb (insert_into_db happyDb t df).table df).table =
        (insert_into_db happyDb t df).table ∧
      (insert_into_db happyDb (insert_into_db happyDb t df).table df).written = 0 := by
    cases h : insertLoop happyDb 2 df with
    | error e =>
      have hl : loadResult happyDb df = .error e := by rw [loadResult_happy, h]
      simp [insert_into_db, hl]
    | ok pending =>
      have hl : loadResult happyDb df = .ok pending := by rw [loadResult_happy, h]
      have hid := idem t pending
      simp [insert_into_db, hl, hid]
  exact ⟨idem t rows, upsert_fst_append t rows,
    fun r hr => by simp [insertIfAbsent, hr], hdb.1, hdb.2⟩

theorem upsert_idempotent_insert_if_absent_witness :
    hasKey [wrow1] wrow1 = true ∧
      insertIfAbsent [wrow1] wrow1 = ([wrow1], false) ∧
      upsert (upsert [wrow1] [wrow1, wrow2]).1 [wrow1, wrow2] =
        ((upsert [wrow1] [wrow1, wrow2]).1, 0) :=
  ⟨by decide,
    (upsert_idempotent_insert_if_absent [wrow1] [wrow1, wrow2] []).2.2.1 wrow1 (by decide),
    (upsert_idempotent_insert_if_absent [wrow1] [wrow1, wrow2] []).1⟩

/-- C4: the `CREATE TABLE IF NOT EXISTS` statement of `insert_into_db`
targets the table `stock_data`, while the per-row `INSERT INTO` statement
targets the table `stock_prices`: the created table and the insert target
are never the same table. -/
theorem created_table_differs_from_insert_table :
    createdTable = some "stock_data" ∧ insertTable = some "stock_prices" ∧
      createdTable ≠ insertTable := by
  refine ⟨by decide, by decide, by decide⟩

/-- C3: a 2xx provider response whose parsed JSON body lacks the `values`
field makes the fetch fail with an upstream error carrying the provider's
`message` field (or the text "Unknown error" when that field is absent),
and one run-loop iteration for that symbol leaves the price table exactly
as it was: the symbol contributes no rows to the store. -/
theorem fetch_missing_values_upstream (symbol interval start_date end_date : String)
    (status : Nat) (msg : Option String) (db : String → DbEnv) (table : List DbRow)
    (h1 : 200 ≤ status) (h2 : status < 300) :
    fetch_stock_data symbol interval start_date end_date (.response status ⟨none, msg⟩) =
        .error (.upstream ("API Error: " ++ msg.getD "Unknown error")) ∧
      (runSymbol ⟨fun _ => .response status ⟨none, msg⟩, db⟩ interval start_date end_date
          table symbol).1 = table := by
  have hf : fetch_stock_data symbol interval start_date end_date
      (.response status ⟨none, msg⟩) =
      .error (.upstream ("API Error: " ++ msg.getD "Unknown error")) := by
    simp [fetch_stock_data, h1, h2]
  refine ⟨hf, ?_⟩
  simp [runSymbol, hf]

theorem fetch_missing_values_upstream_witness :
    fetch_stock_data "AAPL" "1h" "2024-01-01" "2024-01-03"
        (.response 200 ⟨none, none⟩) = .error (.upstream "API Error: Unknown error") ∧
      (runSymbol ⟨fun _ => .response 200 ⟨none, none⟩, fun _ => happyDb⟩
          "1h" "2024-01-01" "2024-01-03" [wrow1] "AAPL").1 = [wrow1] :=
  fetch_missing_values_upstream "AAPL" "1h" "2024-01-01" "2024-01-03" 200 none
    (fun _ => happyDb) [wrow1] (by decide) (by decide)

/-- C7: whenever the fetch of a response carrying `values` succeeds, the
resulting DataFrame has exactly one row per element of `values`, and the
`symbol` column of every row equals the queried symbol. -/
theorem fetch_one_row_per_quote (symbol interval start_date end_date : String)
    (status : Nat) (values : List RawQuote) (msg : Option String) (rows : List StockRow)
    (h : fetch_stock_data symbol interval start_date end_date
      (.response status ⟨some values, msg⟩) = .ok rows) :
    rows.length = values.length ∧ ∀ r ∈ rows, r.symbol = symbol := by
  simp only [fetch_stock_data] at h
  by_cases h2 : 200 ≤ status ∧ status < 300
  · rw [if_pos h2] at h
    by_cases hv : values.isEmpty
    · rw [if_pos hv] at h
      exact Except.noConfusion h
    · rw [if_neg hv] at h
      refine ⟨mapExcept_ok_length h, ?_⟩
      intro r hr
      rcases mapExcept_ok_mem h r hr with ⟨q, _, hfq⟩
      unfold toStockRow at hfq
      cases hp : parseDatetime q.datetime with
      | none => rw [hp] at hfq; exact Except.noConfusion hfq
      | some ts => rw [hp] at hfq; cases hfq; rfl
  · rw [if_neg h2] at h
    exact Except.noConfusion h

theorem fetch_one_row_per_quote_witness :
    ([⟨⟨2024, 1, 2, 9, 30, 0⟩, "100.0", "101.5", "99.0", "100.5", "1000", "AAPL"⟩] :
        List StockRow).length = [goodQuote].length ∧
      ∀ r ∈ ([⟨⟨2024, 1, 2, 9, 30, 0⟩, "100.0", "101.5", "99.0", "100.5", "1000", "AAPL"⟩] :
        List StockRow), r.symbol = "AAPL" :=
  fetch_one_row_per_quote "AAPL" "1h" "2024-01-01" "2024-01-03" 200 [goodQuote] none
    [⟨⟨2024, 1, 2, 9, 30, 0⟩, "100.0", "101.5", "99.0", "100.5", "1000", "AAPL"⟩] rfl

/-- C8: a connection failure makes the fetch fail with a transport error
carrying the connection failure's detail, and a response with a non-2xx
HTTP status makes it fail with a transport error naming the status
(`response.raise_for_status()`); a transport error is never the upstream
error raised for a logically failed 2xx response. -/
theorem fetch_transport_errors (symbol interval start_date end_date d : String)
    (status : Nat) (body : ApiBody) (h : ¬(200 ≤ status ∧ status < 300)) :
    fetch_stock_data symbol interval start_date end_date (.connectionFailure d) =
        .error (.transport d) ∧
      fetch_stock_data symbol interval start_date end_date (.response status body) =
        .error (.transport ("HTTP status " ++ toString status)) ∧
      (∀ dd m, EtlError.transport dd ≠ EtlError.upstream m) := by
  refine ⟨rfl, ?_, fun dd m hc => EtlError.noConfusion hc⟩
  simp [fetch_stock_data, h]

theorem fetch_transport_errors_witness :
    fetch_stock_data "AAPL" "1h" "2024-01-01" "2024-01-03"
        (.connectionFailure "name resolution failed") =
        .error (.transport "name resolution failed") ∧
      fetch_stock_data "AAPL" "1h" "2024-01-01" "2024-01-03"
        (.response 404 ⟨none, none⟩) = .error (.transport ("HTTP status " ++ toString 404)) ∧
      (∀ dd m, EtlError.transport dd ≠ EtlError.upstream m) :=
  fetch_transport_errors "AAPL" "1h" "2024-01-01" "2024-01-03" "name resolution failed"
    404 ⟨none, none⟩ (by decide)

/-- C10: a successful 2xx response whose `values` array is empty makes
`fetch_stock_data` raise (the `datetime` column access fails on the empty
DataFrame) instead of returning an empty row sequence, so a symbol with
zero bars in range shows up in the run report as a caught error, not as
a successful zero-row fetch. -/
theorem empty_values_fetch_fails (symbol interval start_date end_date : String)
    (status : Nat) (msg : Option String) (db : String → DbEnv) (table : List DbRow)
    (h1 : 200 ≤ status) (h2 : status < 300) :
    fetch_stock_data symbol interval start_date end_date (.response status ⟨some [], msg⟩) =
        .error (.parse "KeyError: datetime") ∧
      (∀ rows, fetch_stock_data symbol interval start_date end_date
        (.response status ⟨some [], msg⟩) ≠ .ok rows) ∧
      (runSymbol ⟨fun _ => .response status ⟨some [], msg⟩, db⟩ interval start_date end_date
          table symbol).2.mainCaught = some (.parse "KeyError: datetime") := by
  have hf : fetch_stock_data symbol interval start_date end_date
      (.response status ⟨some [], msg⟩) = .error (.parse "KeyError: datetime") := by
    simp [fetch_stock_data, h1, h2]
  refine ⟨hf, ?_, ?_⟩
  · intro rows hc
    rw [hf] at hc
    exact Except.noConfusion hc
  · simp [runSymbol, hf]

theorem empty_values_fetch_fails_witness :
    fetch_stock_data "AAPL" "1h" "2024-01-01" "2024-01-03"
        (.response 200 ⟨some [], none⟩) = .error (.parse "KeyError: datetime") ∧
      (∀ rows, fetch_stock_data "AAPL" "1h" "2024-01-01" "2024-01-03"
        (.response 200 ⟨some [], none⟩) ≠ .ok rows) ∧
      (runSymbol ⟨fun _ => .response 200 ⟨some [], none⟩, fun _ => happyDb⟩
          "1h" "2024-01-01" "2024-01-03" [] "AAPL").2.mainCaught =
        some (.parse "KeyError: datetime") :=
  empty_values_fetch_fails "AAPL" "1h" "2024-01-01" "2024-01-03" 200 none
    (fun _ => happyDb) [] (by decide) (by decide)

/-- C6 counterexample: under a driver whose connect succeeds but whose very
first statement fails, `insert_into_db` returns with the connection
acquired and never released — the `except` clause at lines 155-157 has no
`finally` and skips `conn.close()`. -/
theorem connection_not_released_on_failure :
    (insert_into_db opFailDb [] []).acquired = true ∧
      (insert_into_db opFailDb [] []).released = false :=
  ⟨rfl, rfl⟩

/-- C6 (amended): the load step releases its connection on the success
path only — the connection is released exactly when no error was caught,
so on any failure after acquisition the step returns with the connection
still open. -/
theorem connection_released_iff_no_error (denv : DbEnv) (store : List DbRow)
    (df : List StockRow) :
    (insert_into_db denv store df).released = true ↔
      (insert_into_db denv store df).loggedError = none := by
  unfold insert_into_db
  cases h : loadResult denv df <;> simp

/-- C5 counterexample: with a healthy provider and a store whose
connection attempt fails, the run report entry for the symbol has no
error caught at the orchestrator boundary (`mainCaught = none`): the
store failure was caught and logged inside `insert_into_db` and never
became visible to `main`, so the orchestrator cannot record the symbol
as FAILED. -/
theorem store_error_invisible_to_orchestrator :
    (run connFailEnv "1h" "2024-01-01" "2024-01-03" [] ["AAPL"]).2 =
        [⟨"AAPL", some 1, none, some (.store "connection refused")⟩] ∧
      (run connFailEnv "1h" "2024-01-01" "2024-01-03" [] ["AAPL"]).2.map
          SymbolOutcome.mainCaught = [none] :=
  ⟨by decide, by decide⟩

/-- C5 (amended): a store failure produces a StoreError carrying the
underlying driver message, but it is caught and logged inside the load
step itself, which returns normally; the orchestrator's per-symbol
handler observes only fetch-stage errors, so a load failure never makes
it record the symbol as FAILED. -/
theorem store_error_logged_not_raised (env : Env) (interval start_date end_date : String)
    (t : List DbRow) (s : String) (denv : DbEnv) (store : List DbRow)
    (df : List StockRow) (m : String) :
    (runSymbol env interval start_date end_date t s).2.mainCaught =
      (match fetch_stock_data s interval start_date end_date (env.http s) with
        | .error e => some e
        | .ok _ => none) ∧
    (denv.connectFail = some m →
      (insert_into_db denv store df).loggedError = some (.store m) ∧
      (insert_into_db denv store df).table = store) := by
  constructor
  · unfold runSymbol
    cases h : fetch_stock_data s interval start_date end_date (env.http s) <;> rfl
  · intro hc
    have hl : loadResult denv df = .error (.store m) := by
      unfold loadResult
      rw [hc]
    simp [insert_into_db, hl]

theorem store_error_logged_not_raised_witness :
    connFailDb.connectFail = some "connection refused" ∧
      (runSymbol connFailEnv "1h" "2024-01-01" "2024-01-03" [] "AAPL").2.mainCaught =
        (match fetch_stock_data "AAPL" "1h" "2024-01-01" "2024-01-03" (connFailEnv.http "AAPL") with
          | .error e => some e
          | .ok _ => none) ∧
      (insert_into_db connFailDb [wrow1] []).loggedError = some (.store "connection refused") ∧
      (insert_into_db connFailDb [wrow1] []).table = [wrow1] :=
  ⟨rfl,
    (store_error_logged_not_raised connFailEnv "1h" "2024-01-01" "2024-01-03" [] "AAPL"
      connFailDb [wrow1] [] "connection refused").1,
    ((store_error_logged_not_raised connFailEnv "1h" "2024-01-01" "2024-01-03" [] "AAPL"
      connFailDb [wrow1] [] "connection refused").2 rfl).1,
    ((store_error_logged_not_raised connFailEnv "1h" "2024-01-01" "2024-01-03" [] "AAPL"
      connFailDb [wrow1] [] "connection refused").2 rfl).2⟩

/-- C9: a malformed date-time field makes the fetch of the symbol fail
with a parse error (and the run loop then leaves the table untouched),
and — with a failure-free driver — a malformed numeric field in any row
makes the load step abort with a parse error recorded, committing nothing:
in both cases the whole symbol is aborted and contributes no rows to the
store, not just the malformed row. -/
theorem malformed_fields_abort_symbol (symbol interval start_date end_date : String)
    (status : Nat) (values : List RawQuote) (msg : Option String) (q : RawQuote)
    (denv : DbEnv) (store : List DbRow) (df : List StockRow) (row : StockRow)
    (h1 : 200 ≤ status) (h2 : status < 300)
    (hq : q ∈ values) (hbad : parseDatetime q.datetime = none)
    (hconn : denv.connectFail = none) (hops : ∀ k, denv.opFail k = none)
    (hrow : row ∈ df) (hrbad : parseRow row = none) :
    (∃ dd, fetch_stock_data symbol interval start_date end_date
        (.response status ⟨some values, msg⟩) = .error (.parse dd) ∧
      ∀ (db : String → DbEnv) (t : List DbRow),
        (runSymbol ⟨fun _ => .response status ⟨some values, msg⟩, db⟩
          interval start_date end_date t symbol).1 = t) ∧
    (∃ dd, (insert_into_db denv store df).loggedError = some (.parse dd) ∧
      (insert_into_db denv store df).table = store ∧
      (insert_into_db denv store df).written = 0) := by
  constructor
  · have hne : values.isEmpty = false := by
      cases values with
      | nil => cases hq
      | cons a as => rfl
    have herr : toStockRow symbol q =
        .error (.parse ("to_datetime failed on " ++ q.datetime)) := by
      unfold toStockRow
      rw [hbad]
    rcases mapExcept_error_of_mem hq herr with ⟨d, hd⟩
    rcases mapExcept_toStockRow_error hd with ⟨dd, rfl⟩
    have hf : fetch_stock_data symbol interval start_date end_date
        (.response status ⟨some values, msg⟩) = .error (.parse dd) := by
      simp [fetch_stock_data, h1, h2, hne, hd]
    refine ⟨dd, hf, ?_⟩
    intro db t
    simp [runSymbol, hf]
  · rcases insertLoop_parse_error_of_mem hops hrow hrbad 2 with ⟨dd, hd⟩
    have hl : loadResult denv df = .error (.parse dd) := by
      unfold loadResult
      rw [hconn, hops 0, hops 1, hd]
    refine ⟨dd, ?_, ?_, ?_⟩ <;> simp [insert_into_db, hl]

theorem malformed_fields_abort_symbol_witness :
    (∃ dd, fetch_stock_data "AAPL" "1h" "2024-01-01" "2024-01-03"
        (.response 200 ⟨some [badQuote], none⟩) = .error (.parse dd) ∧
      ∀ (db : String → DbEnv) (t : List DbRow),
        (runSymbol ⟨fun _ => .response 200 ⟨some [badQuote], none⟩, db⟩
          "1h" "2024-01-01" "2024-01-03" t "AAPL").1 = t) ∧
    (∃ dd, (insert_into_db happyDb [wrow2] [badRow]).loggedError = some (.parse dd) ∧
      (insert_into_db happyDb [wrow2] [badRow]).table = [wrow2] ∧
      (insert_into_db happyDb [wrow2] [badRow]).written = 0) :=
  malformed_fields_abort_symbol "AAPL" "1h" "2024-01-01" "2024-01-03" 200 [badQuote]
    none badQuote happyDb [wrow2] [badRow] badRow (by decide) (by decide) (by decide)
    (by decide) rfl (fun _ => rfl) (by decide) (by decide)
